import Mathlib

/-!
# Verification of `tensorflow/python/framework/device.py`

A shallow embedding of the `Device` class and its module-level helpers
(`from_string`, `check_valid`, `merge_device`).  Strings are modelled as
`List Char`; Python's dynamically typed attribute values, where they matter
(the `device_index` attribute is stored without coercion), are modelled by
`PyVal`.  Fallible operations return `Except DeviceError _`; the three
`ValueError` raises of the source are distinguished by constructor.
-/

/-- Strings of the Python source, modelled as lists of characters. -/
abbrev Str := List Char

/-- Python `str.split(sep)` for a one-character separator: always returns a
non-empty list; empty input yields `[[]]`; adjacent separators yield empty
segments. -/
def pySplit (sep : Char) : Str → List Str
  | [] => [[]]
  | c :: rest =>
    match pySplit sep rest with
    | [] => [[]]
    | seg :: segs => if c = sep then [] :: seg :: segs else (c :: seg) :: segs

/-- Value of a decimal digit character. -/
def digVal (c : Char) : Option Nat :=
  if c.isDigit then some (c.toNat - 48) else none

/-- Value of a little-endian (least significant first) list of digit
characters; `none` if any character is not a digit. -/
def parseNatRev : Str → Option Nat
  | [] => some 0
  | c :: cs =>
    match digVal c, parseNatRev cs with
    | some d, some m => some (d + 10 * m)
    | _, _ => none

/-- Value of a non-empty big-endian list of digit characters. -/
def parseNat (l : Str) : Option Nat :=
  match l with
  | [] => none
  | _ => parseNatRev l.reverse

/-- Python `int(s)` on a string: an optional sign followed by decimal
digits.  (The source only ever feeds it plain decimal tokens; exotic
accepted forms of CPython such as surrounding whitespace or underscore
separators are outside the grammar and not modelled.) -/
def pyInt (l : Str) : Option Int :=
  match l with
  | [] => none
  | c :: rest =>
    if c = '-' then (parseNat rest).map (fun n => -(n : Int))
    else if c = '+' then (parseNat rest).map (fun n => (n : Int))
    else (parseNat (c :: rest)).map (fun n => (n : Int))

/-- Little-endian digit characters of `n`, with enough `fuel`. -/
def natStrRevAux : Nat → Nat → Str
  | 0, _ => []
  | fuel + 1, n =>
    Char.ofNat (48 + n % 10) :: (if n < 10 then [] else natStrRevAux fuel (n / 10))

/-- Python `str(n)` for a natural number. -/
def natToStr (n : Nat) : Str := (natStrRevAux (n + 1) n).reverse

/-- Python `str(i)` for an integer. -/
def intToStr (i : Int) : Str :=
  if i < 0 then '-' :: natToStr i.natAbs else natToStr i.toNat

/-- Python `str.upper()` (all tokens involved are ASCII). -/
def upper (l : Str) : Str := l.map Char.toUpper

/-- A dynamically typed Python value: the attributes of a `Device` only ever
hold strings, integers or `None` (`None` is modelled by `Option`). -/
inductive PyVal where
  | intV : Int → PyVal
  | strV : Str → PyVal
deriving DecidableEq

/-- Python `str(v)` on a `PyVal`. -/
def PyVal.pyStr : PyVal → Str
  | intV n => intToStr n
  | strV s => s

/-- Python `int(v)` on a `PyVal`: identity on integers, decimal parse on
strings, `none` when a `ValueError` would be raised. -/
def PyVal.pyIntCoerce : PyVal → Option Int
  | intV n => some n
  | strV s => pyInt s

/-- The `ValueError`s raised by `device.py`, by raise site:
`InvalidInt` for a failing `int(...)` coercion, `DuplicateDeviceType` for
"Cannot specify multiple device types: %s" and `UnknownAttribute` for
"Unknown attribute: '%s' in '%s'". -/
inductive DeviceError where
  | InvalidInt : Str → DeviceError
  | DuplicateDeviceType : Str → DeviceError
  | UnknownAttribute : Str → Str → DeviceError
deriving DecidableEq

/-- The five attributes of a `Device` object.  `job` always holds a string
(the `job` property setter applies `str`), `replica` and `task` always hold
integers (their setters apply `int`), `device_type` holds a string where the
code ever stores one, and `device_index` is a plain attribute that
`__init__` stores without coercion, hence `Option PyVal`. -/
structure Device where
  job : Option Str := none
  replica : Option Int := none
  task : Option Int := none
  device_type : Option Str := none
  device_index : Option PyVal := none
deriving DecidableEq

/-- The `job` property setter: `str(job)` when not `None`. -/
def Device.setJob (d : Device) (v : Option PyVal) : Device :=
  match v with
  | none => { d with job := none }
  | some v => { d with job := some v.pyStr }

/-- The `replica` property setter: `int(replica)` when not `None`;
a failing coercion raises. -/
def Device.setReplica (d : Device) (v : Option PyVal) : Except DeviceError Device :=
  match v with
  | none => .ok { d with replica := none }
  | some v =>
    match v.pyIntCoerce with
    | some n => .ok { d with replica := some n }
    | none => .error (.InvalidInt v.pyStr)

/-- The `task` property setter: `int(task)` when not `None`. -/
def Device.setTask (d : Device) (v : Option PyVal) : Except DeviceError Device :=
  match v with
  | none => .ok { d with task := none }
  | some v =>
    match v.pyIntCoerce with
    | some n => .ok { d with task := some n }
    | none => .error (.InvalidInt v.pyStr)

/-- The `device_type` normalization of `__init__`: the upper-cased form
exactly when the input is the literal lowercase `"cpu"` or `"gpu"`,
the input unchanged otherwise. -/
def dtypeNorm : Option Str → Option Str
  | some t => if t = "cpu".data ∨ t = "gpu".data then some (upper t) else some t
  | none => none

/-- `Device.__init__`: sets `job`, `replica`, `task` through the property
setters in that order, then stores `device_type` (normalized) and
`device_index` (verbatim, no coercion) as plain attributes. -/
def Device.init (job replica task : Option PyVal) (device_type : Option Str)
    (device_index : Option PyVal) : Except DeviceError Device :=
  match (({} : Device).setJob job).setReplica replica with
  | .error e => .error e
  | .ok d =>
    match d.setTask task with
    | .error e => .error e
    | .ok d => .ok { d with device_type := dtypeNorm device_type,
                            device_index := device_index }

/-- The shared body of the two device-kind branches of `parse_from_string`:
raise on an already-set `device_type`, store the kind, then parse the index
token unless it is `"*"` (or, short form with a single token, absent). -/
def setDeviceOf (spec : Str) (d : Device) (kind : Str) (idx : Option Str) :
    Except DeviceError Device :=
  if d.device_type.isSome then .error (.DuplicateDeviceType spec)
  else
    let d := { d with device_type := some kind }
    match idx with
    | some i =>
      if i ≠ "*".data then
        match pyInt i with
        | some n => .ok { d with device_index := some (.intV n) }
        | none => .error (.InvalidInt i)
      else .ok d
    | none => .ok d

/-- One iteration of the segment loop of `parse_from_string`, dispatching on
the number of `:`-tokens exactly as the `ly == _` guards of the source do
(`y` is never the empty list, as `str.split` never returns one).  A segment
whose first token is empty falls through every guard, including the final
`y[0] != ""`, and is skipped. -/
def processSegment (spec : Str) (d : Device) (y : List Str) : Except DeviceError Device :=
  match y with
  | [a, b] =>
    if a = "job".data then .ok (d.setJob (some (.strV b)))
    else if a = "replica".data then d.setReplica (some (.strV b))
    else if a = "task".data then d.setTask (some (.strV b))
    else if upper a = "GPU".data ∨ upper a = "CPU".data then
      setDeviceOf spec d (upper a) (some b)
    else if a ≠ [] then .error (.UnknownAttribute a spec)
    else .ok d
  | [a] =>
    if upper a = "GPU".data ∨ upper a = "CPU".data then
      setDeviceOf spec d (upper a) none
    else if a ≠ [] then .error (.UnknownAttribute a spec)
    else .ok d
  | [a, b, c] =>
    if a = "device".data then setDeviceOf spec d b (some c)
    else if a ≠ [] then .error (.UnknownAttribute a spec)
    else .ok d
  | a :: _ => if a ≠ [] then .error (.UnknownAttribute a spec) else .ok d
  | [] => .ok d

/-- The segment loop: left to right, stopping at the first raise. -/
def processList (spec : Str) : Device → List (List Str) → Except DeviceError Device
  | d, [] => .ok d
  | d, y :: rest =>
    match processSegment spec d y with
    | .ok d2 => processList spec d2 rest
    | .error e => .error e

/-- `Device.parse_from_string`: clear all fields, split on `/`, split each
segment on `:`, process the segments.  (The source mutates `self` and
returns it; the embedding returns the resulting value.) -/
def parse_from_string (spec : Str) : Except DeviceError Device :=
  processList spec {} ((pySplit '/' spec).map (pySplit ':'))

/-- Module-level `from_string`: `Device().parse_from_string(spec)`. -/
def from_string (spec : Str) : Except DeviceError Device :=
  parse_from_string spec

/-- Module-level `check_valid`: parse for validation only. -/
def check_valid (spec : Str) : Except DeviceError Unit :=
  match from_string spec with
  | .ok _ => .ok ()
  | .error e => .error e

/-- `Device.merge_from`: for each attribute of `dev` that is not `None`,
assign it onto `self`.  `job`, `replica` and `task` go through their
property setters, whose `str`/`int` coercions are identities on the already
coerced stored values; `device_type` and `device_index` are plain attributes
copied verbatim (in particular no `cpu`/`gpu` case normalization happens
here). -/
def Device.merge_from (self dev : Device) : Device :=
  let self := if dev.job.isSome then { self with job := dev.job } else self
  let self := if dev.replica.isSome then { self with replica := dev.replica } else self
  let self := if dev.task.isSome then { self with task := dev.task } else self
  let self := if dev.device_type.isSome then { self with device_type := dev.device_type } else self
  if dev.device_index.isSome then { self with device_index := dev.device_index } else self

/-- `Device.to_string`: concatenate, in order, the `/job:`, `/replica:`,
`/task:` and `/device:` segments of the present fields; the device index
prints as `*` when absent and via `str(...)` otherwise. -/
def Device.to_string (d : Device) : Str :=
  (match d.job with
   | some j => "/job:".data ++ j
   | none => []) ++
  (match d.replica with
   | some r => "/replica:".data ++ intToStr r
   | none => []) ++
  (match d.task with
   | some t => "/task:".data ++ intToStr t
   | none => []) ++
  (match d.device_type with
   | some dt =>
     "/device:".data ++ dt ++ ":".data ++
       (match d.device_index with
        | some i => i.pyStr
        | none => "*".data)
   | none => [])

/-- Module-level `merge_device` applied to a string spec: parse the spec up
front (raising there on a bad spec), and return the device function, which
parses the candidate device of the node, copies the captured spec and merges
the candidate onto the copy (candidate takes precedence). -/
def merge_device (spec : Str) : Except DeviceError (Str → Except DeviceError Device) :=
  match from_string spec with
  | .error e => .error e
  | .ok spec_d =>
    .ok (fun node_device =>
      match from_string node_device with
      | .error e => .error e
      | .ok current_device => .ok (spec_d.merge_from current_device))

/-- Resolution of a node's device through a stack of `merge_device`
functions, applied from the innermost scope outwards, each invocation
receiving the serialized result of the previous one — the way nested
`with tf.Device(...)` scopes compose in the docstring example of
`merge_device`. -/
def resolveChain : List Str → Str → Except DeviceError Str
  | [], dev => .ok dev
  | spec :: outer, dev =>
    match merge_device spec with
    | .error e => .error e
    | .ok f =>
      match f dev with
      | .error e => .error e
      | .ok d => resolveChain outer d.to_string
instance {e a : Type} [DecidableEq e] [DecidableEq a] : DecidableEq (Except e a) :=
  fun x y =>
    match x, y with
    | .ok v, .ok w => if h : v = w then isTrue (by rw [h]) else isFalse (by simp [h])
    | .error v, .error w => if h : v = w then isTrue (by rw [h]) else isFalse (by simp [h])
    | .ok _, .error _ => isFalse (by simp)
    | .error _, .ok _ => isFalse (by simp)

def joinSegs : List Str → Str
  | [] => []
  | s :: rest => '/' :: (s ++ joinSegs rest)

def jobSegs : Option Str → List Str
  | some j => ["job".data ++ ':' :: j]
  | none => []

def replicaSegs : Option Int → List Str
  | some r => ["replica".data ++ ':' :: intToStr r]
  | none => []

def taskSegs : Option Int → List Str
  | some t => ["task".data ++ ':' :: intToStr t]
  | none => []

def idxStr : Option PyVal → Str
  | some i => i.pyStr
  | none => "*".data

def devSegs (dto : Option Str) (dio : Option PyVal) : List Str :=
  match dto with
  | some dt => ["device".data ++ ':' :: (dt ++ ':' :: idxStr dio)]
  | none => []

def segStrings (d : Device) : List Str :=
  jobSegs d.job ++ (replicaSegs d.replica ++ (taskSegs d.task ++ devSegs d.device_type d.device_index))

def RecognizedSeg (y : List Str) : Prop :=
  (y.length = 2 ∧ (y.headD [] = "job".data ∨ y.headD [] = "replica".data ∨
     y.headD [] = "task".data)) ∨
  ((y.length = 1 ∨ y.length = 2) ∧
     (upper (y.headD []) = "GPU".data ∨ upper (y.headD []) = "CPU".data)) ∨
  (y.length = 3 ∧ y.headD [] = "device".data)

def DeviceSegP (y : List Str) : Prop :=
  ((y.length = 1 ∨ y.length = 2) ∧
     (upper (y.headD []) = "GPU".data ∨ upper (y.headD []) = "CPU".data)) ∨
  (y.length = 3 ∧ y.headD [] = "device".data)

instance (y : List Str) : Decidable (RecognizedSeg y) := by
  rw [RecognizedSeg]; infer_instance

instance (y : List Str) : Decidable (DeviceSegP y) := by
  rw [DeviceSegP]; infer_instance

structure Store where
  next : Nat
  mem : Nat → Device

def Store.get (st : Store) (r : Nat) : Device := st.mem r

def Store.set (st : Store) (r : Nat) (d : Device) : Store :=
  ⟨st.next, fun q => if q = r then d else st.mem q⟩

def Store.alloc (st : Store) (d : Device) : Store × Nat :=
  (⟨st.next + 1, fun q => if q = st.next then d else st.mem q⟩, st.next)

def device_function (r : Nat) (st : Store) (node_device : Str) :
    Except DeviceError (Store × Nat) :=
  match from_string node_device with
  | .error e => .error e
  | .ok current_device =>
    let p := st.alloc (st.get r)
    let st2 := p.1.set p.2 ((p.1.get p.2).merge_from current_device)
    .ok (st2, p.2)

def resStore (x : Except DeviceError (Store × Nat)) : Store :=
  match x with
  | .ok p => p.1
  | .error _ => ⟨0, fun _ => ⟨none, none, none, none, none⟩⟩

def resRef (x : Except DeviceError (Store × Nat)) : Nat :=
  match x with
  | .ok p => p.2
  | .error _ => 0

def optIntCoerce : Option PyVal → Option (Option Int)
  | none => some none
  | some v => (v.pyIntCoerce).map some
theorem digVal_digitChar (d : Nat) (h : d < 10) :
    digVal (Char.ofNat (48 + d)) = some d := by
  interval_cases d <;> decide

theorem natStrRevAux_all_digit (fuel n : Nat) :
    ∀ c ∈ natStrRevAux fuel n, c.isDigit = true := by
  induction fuel generalizing n with
  | zero => intro c hc; simp [natStrRevAux] at hc
  | succ fuel ih =>
    intro c hc
    simp only [natStrRevAux, List.mem_cons] at hc
    rcases hc with h | h
    · subst h
      have h10 : n % 10 < 10 := Nat.mod_lt _ (by omega)
      interval_cases h : n % 10 <;> simp_all
    · split at h
      · simp at h
      · exact ih (n / 10) c h

theorem natToStr_all_digit (n : Nat) : ∀ c ∈ natToStr n, c.isDigit = true := by
  intro c hc
  rw [natToStr, List.mem_reverse] at hc
  exact natStrRevAux_all_digit _ _ c hc

theorem natStrRevAux_ne_nil (fuel n : Nat) : natStrRevAux (fuel + 1) n ≠ [] := by
  simp [natStrRevAux]

theorem natToStr_ne_nil (n : Nat) : natToStr n ≠ [] := by
  rw [natToStr]
  simp only [ne_eq, List.reverse_eq_nil_iff]
  exact natStrRevAux_ne_nil n n

theorem parseNatRev_natStrRevAux (fuel : Nat) :
    ∀ n ≤ fuel, parseNatRev (natStrRevAux (fuel + 1) n) = some n := by
  induction fuel with
  | zero =>
    intro n hn
    interval_cases n
    decide
  | succ fuel ih =>
    intro n hn
    have h10 : n % 10 < 10 := Nat.mod_lt _ (by omega)
    have hstep : ∀ l, parseNatRev (Char.ofNat (48 + n % 10) :: l) =
        match digVal (Char.ofNat (48 + n % 10)), parseNatRev l with
        | some d, some m => some (d + 10 * m)
        | _, _ => none := fun l => rfl
    by_cases hlt : n < 10
    · rw [show natStrRevAux (fuel + 1 + 1) n = [Char.ofNat (48 + n % 10)] from by
        rw [natStrRevAux, if_pos hlt]]
      rw [hstep, digVal_digitChar _ h10]
      exact congrArg some (by omega)
    · have hdiv : n / 10 ≤ fuel := by omega
      rw [show natStrRevAux (fuel + 1 + 1) n =
          Char.ofNat (48 + n % 10) :: natStrRevAux (fuel + 1) (n / 10) from by
        rw [natStrRevAux, if_neg hlt]]
      rw [hstep, digVal_digitChar _ h10, ih _ hdiv]
      exact congrArg some (by omega)

theorem parseNat_natToStr (n : Nat) : parseNat (natToStr n) = some n := by
  cases h : natToStr n with
  | nil => exact absurd h (natToStr_ne_nil n)
  | cons c cs =>
    have h1 : parseNat (c :: cs) = parseNatRev (c :: cs).reverse := rfl
    rw [h1, ← h, natToStr, List.reverse_reverse]
    exact parseNatRev_natStrRevAux n n le_rfl

theorem digit_excludes (c : Char) (h : c.isDigit = true) :
    c ≠ '-' ∧ c ≠ '+' ∧ c ≠ ':' ∧ c ≠ '/' ∧ c ≠ '*' := by
  refine ⟨?_, ?_, ?_, ?_, ?_⟩ <;> rintro rfl <;> exact absurd h (by decide)

theorem pyInt_natToStr (n : Nat) : pyInt (natToStr n) = some (n : Int) := by
  cases h : natToStr n with
  | nil => exact absurd h (natToStr_ne_nil n)
  | cons c cs =>
    have hd : c.isDigit = true := natToStr_all_digit n c (by rw [h]; exact List.mem_cons_self c cs)
    obtain ⟨h1, h2, -, -, -⟩ := digit_excludes c hd
    have hstep : pyInt (c :: cs) = (parseNat (c :: cs)).map (fun n => (n : Int)) := by
      rw [pyInt, if_neg h1, if_neg h2]
    rw [hstep, ← h, parseNat_natToStr]
    rfl

theorem pyInt_intToStr (i : Int) : pyInt (intToStr i) = some i := by
  by_cases hneg : i < 0
  · rw [intToStr, if_pos hneg]
    have : pyInt ('-' :: natToStr i.natAbs) =
        (parseNat (natToStr i.natAbs)).map (fun n => -(n : Int)) := by
      rw [pyInt, if_pos rfl]
    rw [this, parseNat_natToStr]
    exact congrArg some (show -((i.natAbs : Nat) : Int) = i by omega)
  · rw [intToStr, if_neg hneg, pyInt_natToStr]
    have : ((i.toNat : Nat) : Int) = i := Int.toNat_of_nonneg (by omega)
    rw [this]

theorem intToStr_no_colon (i : Int) : ':' ∉ intToStr i := by
  intro hmem
  rw [intToStr] at hmem
  split at hmem
  · rcases List.mem_cons.mp hmem with h | h
    · exact absurd h.symm (by decide)
    · exact (digit_excludes ':' (natToStr_all_digit _ _ h)).2.2.1 rfl
  · exact (digit_excludes ':' (natToStr_all_digit _ _ hmem)).2.2.1 rfl

theorem intToStr_no_slash (i : Int) : '/' ∉ intToStr i := by
  intro hmem
  rw [intToStr] at hmem
  split at hmem
  · rcases List.mem_cons.mp hmem with h | h
    · exact absurd h.symm (by decide)
    · exact (digit_excludes '/' (natToStr_all_digit _ _ h)).2.2.2.1 rfl
  · exact (digit_excludes '/' (natToStr_all_digit _ _ hmem)).2.2.2.1 rfl

theorem intToStr_ne_star (i : Int) : intToStr i ≠ ['*'] := by
  intro h
  have : '*' ∈ intToStr i := by rw [h]; exact List.mem_cons_self _ _

  rw [intToStr] at this
  split at this
  · rcases List.mem_cons.mp this with h2 | h2
    · exact absurd h2.symm (by decide)
    · exact (digit_excludes '*' (natToStr_all_digit _ _ h2)).2.2.2.2 rfl
  · exact (digit_excludes '*' (natToStr_all_digit _ _ this)).2.2.2.2 rfl

theorem alphanum_excludes (c : Char) (h : c.isAlphanum = true) :
    c ≠ ':' ∧ c ≠ '/' := by
  constructor <;> rintro rfl <;> exact absurd h (by decide)

theorem pySplit_ne_nil (sep : Char) (l : Str) : pySplit sep l ≠ [] := by
  induction l with
  | nil => simp [pySplit]
  | cons c rest ih =>
    rcases h : pySplit sep rest with - | ⟨seg, segs⟩
    · exact absurd h ih
    · rw [pySplit, h]
      by_cases hc : c = sep <;> simp [hc]

theorem pySplit_no_sep (sep : Char) (l : Str) (h : sep ∉ l) : pySplit sep l = [l] := by
  induction l with
  | nil => rfl
  | cons c rest ih =>
    have hc : c ≠ sep := fun hh => h (hh ▸ List.mem_cons_self c rest)
    have hr : sep ∉ rest := fun hh => h (List.mem_cons_of_mem c hh)
    rw [pySplit, ih hr]
    simp [hc]

theorem pySplit_cons_sep (sep : Char) (l : Str) :
    pySplit sep (sep :: l) = [] :: pySplit sep l := by
  rw [pySplit]
  rcases h : pySplit sep l with - | ⟨seg, segs⟩
  · exact absurd h (pySplit_ne_nil sep l)
  · simp

theorem pySplit_append (sep : Char) (a b : Str) (ha : sep ∉ a) (h t : _)
    (hb : pySplit sep b = h :: t) :
    pySplit sep (a ++ b) = (a ++ h) :: t := by
  induction a with
  | nil => simpa using hb
  | cons c a2 ih =>
    have hc : c ≠ sep := fun hh => ha (hh ▸ List.mem_cons_self c a2)
    have ha2 : sep ∉ a2 := fun hh => ha (List.mem_cons_of_mem c hh)
    rw [List.cons_append, pySplit, ih ha2]
    simp [hc]

theorem pySplit_pair (k v : Str) (hk : ':' ∉ k) (hv : ':' ∉ v) :
    pySplit ':' (k ++ ':' :: v) = [k, v] := by
  have hb : pySplit ':' (':' :: v) = [] :: [v] := by
    rw [pySplit_cons_sep, pySplit_no_sep ':' v hv]
  rw [pySplit_append ':' k (':' :: v) hk [] [v] hb]
  simp

theorem pySplit_triple (k1 k2 v : Str) (h1 : ':' ∉ k1) (h2 : ':' ∉ k2) (h3 : ':' ∉ v) :
    pySplit ':' (k1 ++ ':' :: (k2 ++ ':' :: v)) = [k1, k2, v] := by
  have hb : pySplit ':' (':' :: (k2 ++ ':' :: v)) = [] :: [k2, v] := by
    rw [pySplit_cons_sep, pySplit_pair k2 v h2 h3]
  rw [pySplit_append ':' k1 _ h1 [] [k2, v] hb]
  simp

theorem pySplit_joinSegs (l : List Str) (h : ∀ s ∈ l, '/' ∉ s) :
    pySplit '/' (joinSegs l) = [] :: l := by
  induction l with
  | nil => rfl
  | cons s rest ih =>
    have hs : '/' ∉ s := h s (List.mem_cons_self s rest)
    have hrest : ∀ x ∈ rest, '/' ∉ x := fun x hx => h x (List.mem_cons_of_mem s hx)
    rw [joinSegs, pySplit_cons_sep,
        pySplit_append '/' s (joinSegs rest) hs [] rest (ih hrest)]
    simp

theorem to_string_eq_joinSegs (d : Device) : d.to_string = joinSegs (segStrings d) := by
  rcases d with ⟨jo, ro, ta, dto, dio⟩
  cases jo <;> cases ro <;> cases ta <;> cases dto <;>
    simp [Device.to_string, segStrings, joinSegs, jobSegs, replicaSegs, taskSegs,
      devSegs, idxStr]

theorem seg_skip_empty (S : Str) (d : Device) : processSegment S d [[]] = .ok d := rfl

theorem seg_job (S : Str) (d : Device) (j : Str) :
    processSegment S d ["job".data, j] = .ok { d with job := some j } := rfl

theorem seg_replica (S : Str) (d : Device) (r : Int) :
    processSegment S d ["replica".data, intToStr r] = .ok { d with replica := some r } := by
  have h1 : processSegment S d ["replica".data, intToStr r] =
      d.setReplica (some (.strV (intToStr r))) := rfl
  rw [h1, Device.setReplica]
  simp [PyVal.pyIntCoerce, pyInt_intToStr]

theorem seg_task (S : Str) (d : Device) (t : Int) :
    processSegment S d ["task".data, intToStr t] = .ok { d with task := some t } := by
  have h1 : processSegment S d ["task".data, intToStr t] =
      d.setTask (some (.strV (intToStr t))) := rfl
  rw [h1, Device.setTask]
  simp [PyVal.pyIntCoerce, pyInt_intToStr]

theorem seg_device_idx (S : Str) (d : Device) (dt : Str) (n : Int)
    (h : d.device_type = none) :
    processSegment S d ["device".data, dt, intToStr n] =
      .ok { d with device_type := some dt, device_index := some (.intV n) } := by
  have h1 : processSegment S d ["device".data, dt, intToStr n] =
      setDeviceOf S d dt (some (intToStr n)) := rfl
  rw [h1, setDeviceOf, h]
  simp [intToStr_ne_star, pyInt_intToStr]

theorem seg_device_star (S : Str) (d : Device) (dt : Str)
    (h : d.device_type = none) :
    processSegment S d ["device".data, dt, "*".data] =
      .ok { d with device_type := some dt } := by
  have h1 : processSegment S d ["device".data, dt, "*".data] =
      setDeviceOf S d dt (some "*".data) := rfl
  rw [h1, setDeviceOf, h]
  simp

theorem processList_append (S : Str) (d : Device) (l1 l2 : List (List Str)) :
    processList S d (l1 ++ l2) =
      match processList S d l1 with
      | .ok d2 => processList S d2 l2
      | .error e => .error e := by
  induction l1 generalizing d with
  | nil => simp [processList]
  | cons y rest ih =>
    rw [List.cons_append, processList, processList]
    cases processSegment S d y with
    | ok d2 => exact ih d2
    | error e => rfl

theorem processList_cons_ok (S : Str) (d d2 : Device) (y : List Str) (rest : List (List Str))
    (h : processSegment S d y = .ok d2) :
    processList S d (y :: rest) = processList S d2 rest := by
  rw [processList, h]

theorem processList_append_ok (S : Str) (d d1 : Device) (l1 l2 : List (List Str))
    (h : processList S d l1 = .ok d1) :
    processList S d (l1 ++ l2) = processList S d1 l2 := by
  rw [processList_append, h]

theorem part_job (S : Str) (st : Device) (jo : Option Str)
    (hst : st.job = none) (hj : ∀ j ∈ jo, ':' ∉ j) :
    processList S st ((jobSegs jo).map (pySplit ':')) = .ok { st with job := jo } := by
  cases jo with
  | none =>
    rcases st with ⟨f1, f2, f3, f4, f5⟩
    cases hst
    rfl
  | some j =>
    have hc : ':' ∉ j := hj j rfl
    rw [jobSegs, List.map_cons, List.map_nil, pySplit_pair "job".data j (by decide) hc,
        processList, seg_job]
    rfl

theorem part_replica (S : Str) (st : Device) (ro : Option Int)
    (hst : st.replica = none) :
    processList S st ((replicaSegs ro).map (pySplit ':')) = .ok { st with replica := ro } := by
  cases ro with
  | none =>
    rcases st with ⟨f1, f2, f3, f4, f5⟩
    cases hst
    rfl
  | some r =>
    rw [replicaSegs, List.map_cons, List.map_nil,
        pySplit_pair "replica".data (intToStr r) (by decide) (intToStr_no_colon r),
        processList, seg_replica]
    rfl

theorem part_task (S : Str) (st : Device) (ta : Option Int)
    (hst : st.task = none) :
    processList S st ((taskSegs ta).map (pySplit ':')) = .ok { st with task := ta } := by
  cases ta with
  | none =>
    rcases st with ⟨f1, f2, f3, f4, f5⟩
    cases hst
    rfl
  | some t =>
    rw [taskSegs, List.map_cons, List.map_nil,
        pySplit_pair "task".data (intToStr t) (by decide) (intToStr_no_colon t),
        processList, seg_task]
    rfl

theorem part_device (S : Str) (st : Device) (dto : Option Str) (dio : Option PyVal)
    (hst1 : st.device_type = none) (hst2 : st.device_index = none)
    (hcouple : dto = none → dio = none)
    (hdtc : ∀ s ∈ dto, ':' ∉ s)
    (hdic : ∀ v ∈ dio, ∃ n : Int, v = .intV n) :
    processList S st ((devSegs dto dio).map (pySplit ':')) =
      .ok { st with device_type := dto, device_index := dio } := by
  cases dto with
  | none =>
    have hdio := hcouple rfl
    subst hdio
    rcases st with ⟨f1, f2, f3, f4, f5⟩
    cases hst1
    cases hst2
    rfl
  | some dt =>
    have hc : ':' ∉ dt := hdtc dt rfl
    cases dio with
    | none =>
      rw [devSegs, idxStr, List.map_cons, List.map_nil,
          pySplit_triple "device".data dt "*".data (by decide) hc (by decide),
          processList, seg_device_star S st dt hst1]
      rw [hst2]
      rfl
    | some v =>
      obtain ⟨n, hv⟩ := hdic v rfl
      subst hv
      have hpy : idxStr (some (PyVal.intV n)) = intToStr n := rfl
      rw [devSegs, hpy, List.map_cons, List.map_nil,
          pySplit_triple "device".data dt (intToStr n) (by decide) hc (intToStr_no_colon n),
          processList, seg_device_idx S st dt n hst1]
      rfl

theorem segStrings_no_slash (d : Device)
    (hj : ∀ j ∈ d.job, '/' ∉ j)
    (hdt : ∀ s ∈ d.device_type, '/' ∉ s)
    (hdi : ∀ v ∈ d.device_index, ∃ n : Int, v = .intV n) :
    ∀ s ∈ segStrings d, '/' ∉ s := by
  intro s hs
  rw [segStrings] at hs
  rcases List.mem_append.mp hs with hs | hs
  · cases hjo : d.job with
    | none => rw [hjo] at hs; simp [jobSegs] at hs
    | some j =>
      rw [hjo, jobSegs, List.mem_singleton] at hs
      subst hs
      intro hmem
      rcases List.mem_append.mp hmem with h | h
      · exact absurd h (by decide)
      · rcases List.mem_cons.mp h with h | h
        · exact absurd h (by decide)
        · exact hj j (by rw [hjo]; rfl) h
  rcases List.mem_append.mp hs with hs | hs
  · cases hro : d.replica with
    | none => rw [hro] at hs; simp [replicaSegs] at hs
    | some r =>
      rw [hro, replicaSegs, List.mem_singleton] at hs
      subst hs
      intro hmem
      rcases List.mem_append.mp hmem with h | h
      · exact absurd h (by decide)
      · rcases List.mem_cons.mp h with h | h
        · exact absurd h (by decide)
        · exact intToStr_no_slash r h
  rcases List.mem_append.mp hs with hs | hs
  · cases hta : d.task with
    | none => rw [hta] at hs; simp [taskSegs] at hs
    | some t =>
      rw [hta, taskSegs, List.mem_singleton] at hs
      subst hs
      intro hmem
      rcases List.mem_append.mp hmem with h | h
      · exact absurd h (by decide)
      · rcases List.mem_cons.mp h with h | h
        · exact absurd h (by decide)
        · exact intToStr_no_slash t h
  · cases hdto : d.device_type with
    | none => rw [hdto] at hs; simp [devSegs] at hs
    | some dt =>
      rw [hdto, devSegs, List.mem_singleton] at hs
      subst hs
      intro hmem
      rcases List.mem_append.mp hmem with h | h
      · exact absurd h (by decide)
      · rcases List.mem_cons.mp h with h | h
        · exact absurd h (by decide)
        · rcases List.mem_append.mp h with h2 | h2
          · exact hdt dt (by rw [hdto]; rfl) h2
          · rcases List.mem_cons.mp h2 with h3 | h3
            · exact absurd h3 (by decide)
            · cases hdio : d.device_index with
              | none => rw [hdio, idxStr] at h3; exact absurd h3 (by decide)
              | some v =>
                obtain ⟨n, hv⟩ := hdi v (by rw [hdio]; rfl)
                rw [hdio, hv, idxStr] at h3
                exact intToStr_no_slash n h3

/-- C1: for every DeviceSpec built from the constrained grammar (job without
slash or colon, non-negative integer replica, task and device index, an
index only alongside a device type, and an alphanumeric device type such as
CPU or GPU), parsing the serialization with parse_from_string returns a
device whose five fields equal the original ones. -/
theorem round_trip_parse_of_to_string (d : Device)
    (hj : ∀ j ∈ d.job, '/' ∉ j ∧ ':' ∉ j)
    (_hr : ∀ r ∈ d.replica, 0 ≤ r)
    (_ht : ∀ t ∈ d.task, 0 ≤ t)
    (hdt : ∀ s ∈ d.device_type, ∀ c ∈ s, c.isAlphanum = true)
    (hdi : ∀ v ∈ d.device_index, ∃ n : Int, 0 ≤ n ∧ v = .intV n)
    (hcouple : d.device_index.isSome → d.device_type.isSome) :
    parse_from_string d.to_string = .ok d := by
  have hjs : ∀ j ∈ d.job, '/' ∉ j := fun j h => (hj j h).1
  have hjc : ∀ j ∈ d.job, ':' ∉ j := fun j h => (hj j h).2
  have hdts : ∀ s ∈ d.device_type, '/' ∉ s := by
    intro s hs hmem
    exact (alphanum_excludes '/' (hdt s hs '/' hmem)).2 rfl
  have hdtc : ∀ s ∈ d.device_type, ':' ∉ s := by
    intro s hs hmem
    exact (alphanum_excludes ':' (hdt s hs ':' hmem)).1 rfl
  have hdi2 : ∀ v ∈ d.device_index, ∃ n : Int, v = .intV n := by
    intro v hv
    obtain ⟨n, -, hn⟩ := hdi v hv
    exact ⟨n, hn⟩
  have hcouple2 : d.device_type = none → d.device_index = none := by
    intro h
    cases hdio : d.device_index with
    | none => rfl
    | some v =>
      have := hcouple (by rw [hdio]; rfl)
      rw [h] at this
      simp at this
  have hns := segStrings_no_slash d hjs hdts hdi2
  rw [parse_from_string, to_string_eq_joinSegs, pySplit_joinSegs _ hns, List.map_cons]
  have h0 : pySplit ':' ([] : Str) = [[]] := rfl
  rw [h0]
  rw [processList_cons_ok _ _ _ _ _ (seg_skip_empty _ _), segStrings]
  rw [List.map_append, List.map_append, List.map_append]
  rw [processList_append_ok _ _ _ _ _ (part_job _ _ d.job rfl hjc)]
  rw [processList_append_ok _ _ _ _ _ (part_replica _ _ d.replica rfl)]
  rw [processList_append_ok _ _ _ _ _ (part_task _ _ d.task rfl)]
  rw [part_device _ _ d.device_type d.device_index rfl rfl hcouple2 hdtc hdi2]

theorem step_unknown (S : Str) (d : Device) (y : List Str)
    (h0 : y.headD [] ≠ []) (hur : ¬ RecognizedSeg y) :
    processSegment S d y = .error (.UnknownAttribute (y.headD []) S) := by
  rcases y with - | ⟨a, - | ⟨b, - | ⟨c, - | ⟨e, rest⟩⟩⟩⟩
  · exact absurd rfl h0
  · have h0a : a ≠ [] := h0
    have hdev : ¬ (upper a = "GPU".data ∨ upper a = "CPU".data) := fun h =>
      hur (Or.inr (Or.inl ⟨Or.inl rfl, h⟩))
    show (if upper a = "GPU".data ∨ upper a = "CPU".data then
        setDeviceOf S d (upper a) none
      else if a ≠ [] then .error (.UnknownAttribute a S) else .ok d) = _
    rw [if_neg hdev, if_pos h0a]
    rfl
  · have h0a : a ≠ [] := h0
    have hjob : ¬ a = "job".data := fun h => hur (Or.inl ⟨rfl, Or.inl h⟩)
    have hrep : ¬ a = "replica".data := fun h => hur (Or.inl ⟨rfl, Or.inr (Or.inl h)⟩)
    have htask : ¬ a = "task".data := fun h => hur (Or.inl ⟨rfl, Or.inr (Or.inr h)⟩)
    have hdev : ¬ (upper a = "GPU".data ∨ upper a = "CPU".data) := fun h =>
      hur (Or.inr (Or.inl ⟨Or.inr rfl, h⟩))
    show (if a = "job".data then .ok (d.setJob (some (.strV b)))
      else if a = "replica".data then d.setReplica (some (.strV b))
      else if a = "task".data then d.setTask (some (.strV b))
      else if upper a = "GPU".data ∨ upper a = "CPU".data then
        setDeviceOf S d (upper a) (some b)
      else if a ≠ [] then .error (.UnknownAttribute a S) else .ok d) = _
    rw [if_neg hjob, if_neg hrep, if_neg htask, if_neg hdev, if_pos h0a]
    rfl
  · have h0a : a ≠ [] := h0
    have hdev : ¬ a = "device".data := fun h => hur (Or.inr (Or.inr ⟨rfl, h⟩))
    show (if a = "device".data then setDeviceOf S d b (some c)
      else if a ≠ [] then .error (.UnknownAttribute a S) else .ok d) = _
    rw [if_neg hdev, if_pos h0a]
    rfl
  · have h0a : a ≠ [] := h0
    show (if a ≠ [] then Except.error (DeviceError.UnknownAttribute a S)
      else Except.ok d) = _
    rw [if_pos h0a]
    rfl

theorem setDeviceOf_isSome (S : Str) (d : Device) (k : Str) (i : Option Str)
    (h : d.device_type.isSome) :
    setDeviceOf S d k i = .error (.DuplicateDeviceType S) := by
  rw [setDeviceOf, if_pos h]

theorem setDeviceOf_ok (S : Str) (d d2 : Device) (k : Str) (i : Option Str)
    (h : setDeviceOf S d k i = .ok d2) : d2.device_type = some k := by
  rw [setDeviceOf] at h
  split at h
  · cases h
  · cases i with
    | none => cases h; rfl
    | some s =>
      simp only at h
      split at h
      · cases hp : pyInt s with
        | some n => rw [hp] at h; cases h; rfl
        | none => rw [hp] at h; cases h
      · cases h; rfl

theorem setReplica_ok_dtype (d d2 : Device) (v : Option PyVal)
    (h : d.setReplica v = .ok d2) : d2.device_type = d.device_type := by
  cases v with
  | none =>
    simp only [Device.setReplica] at h
    cases h
    rfl
  | some v =>
    simp only [Device.setReplica] at h
    cases hc : v.pyIntCoerce with
    | some n => rw [hc] at h; cases h; rfl
    | none => rw [hc] at h; cases h

theorem setTask_ok_dtype (d d2 : Device) (v : Option PyVal)
    (h : d.setTask v = .ok d2) : d2.device_type = d.device_type := by
  cases v with
  | none =>
    simp only [Device.setTask] at h
    cases h
    rfl
  | some v =>
    simp only [Device.setTask] at h
    cases hc : v.pyIntCoerce with
    | some n => rw [hc] at h; cases h; rfl
    | none => rw [hc] at h; cases h

theorem step_dup (S : Str) (d : Device) (y : List Str)
    (hd : d.device_type.isSome) (hdev : DeviceSegP y) :
    processSegment S d y = .error (.DuplicateDeviceType S) := by
  rcases y with - | ⟨a, - | ⟨b, - | ⟨c, - | ⟨e, rest⟩⟩⟩⟩
  · rcases hdev with ⟨h, -⟩ | ⟨h, -⟩ <;> simp at h
  · rcases hdev with ⟨-, hu⟩ | ⟨h, -⟩
    · have hu2 : upper a = "GPU".data ∨ upper a = "CPU".data := hu
      show (if upper a = "GPU".data ∨ upper a = "CPU".data then
          setDeviceOf S d (upper a) none
        else if a ≠ [] then .error (.UnknownAttribute a S) else .ok d) = _
      rw [if_pos hu2, setDeviceOf_isSome S d _ _ hd]
    · simp at h
  · rcases hdev with ⟨-, hu⟩ | ⟨h, -⟩
    · have hu2 : upper a = "GPU".data ∨ upper a = "CPU".data := hu
      have hjob : ¬ a = "job".data := by
        rintro rfl
        exact absurd hu2 (by decide)
      have hrep : ¬ a = "replica".data := by
        rintro rfl
        exact absurd hu2 (by decide)
      have htask : ¬ a = "task".data := by
        rintro rfl
        exact absurd hu2 (by decide)
      show (if a = "job".data then .ok (d.setJob (some (.strV b)))
        else if a = "replica".data then d.setReplica (some (.strV b))
        else if a = "task".data then d.setTask (some (.strV b))
        else if upper a = "GPU".data ∨ upper a = "CPU".data then
          setDeviceOf S d (upper a) (some b)
        else if a ≠ [] then .error (.UnknownAttribute a S) else .ok d) = _
      rw [if_neg hjob, if_neg hrep, if_neg htask, if_pos hu2, setDeviceOf_isSome S d _ _ hd]
    · simp at h
  · rcases hdev with ⟨h, -⟩ | ⟨-, ha⟩
    · rcases h with h | h <;> simp at h
    · have ha2 : a = "device".data := ha
      show (if a = "device".data then setDeviceOf S d b (some c)
        else if a ≠ [] then .error (.UnknownAttribute a S) else .ok d) = _
      rw [if_pos ha2, setDeviceOf_isSome S d _ _ hd]
  · rcases hdev with ⟨h, -⟩ | ⟨h, -⟩ <;> rcases h with h | h <;> simp at h

theorem step_ok_mono (S : Str) (d d2 : Device) (y : List Str)
    (h : processSegment S d y = .ok d2) (hd : d.device_type.isSome) :
    d2.device_type.isSome := by
  rcases y with - | ⟨a, - | ⟨b, - | ⟨c, - | ⟨e, rest⟩⟩⟩⟩
  · have h2 : (Except.ok d : Except DeviceError Device) = .ok d2 := h
    cases h2
    exact hd
  · have h2 : (if upper a = "GPU".data ∨ upper a = "CPU".data then
        setDeviceOf S d (upper a) none
      else if a ≠ [] then Except.error (DeviceError.UnknownAttribute a S)
      else Except.ok d) = .ok d2 := h
    split_ifs at h2
    · rw [setDeviceOf_isSome S d _ _ hd] at h2
      cases h2
    · cases h2
      exact hd
  · have h2 : (if a = "job".data then Except.ok (d.setJob (some (.strV b)))
      else if a = "replica".data then d.setReplica (some (.strV b))
      else if a = "task".data then d.setTask (some (.strV b))
      else if upper a = "GPU".data ∨ upper a = "CPU".data then
        setDeviceOf S d (upper a) (some b)
      else if a ≠ [] then Except.error (DeviceError.UnknownAttribute a S)
      else Except.ok d) = .ok d2 := h
    split_ifs at h2
    · cases h2
      exact hd
    · rw [setReplica_ok_dtype d d2 _ h2]
      exact hd
    · rw [setTask_ok_dtype d d2 _ h2]
      exact hd
    · rw [setDeviceOf_isSome S d _ _ hd] at h2
      cases h2
    · cases h2
      exact hd
  · have h2 : (if a = "device".data then setDeviceOf S d b (some c)
      else if a ≠ [] then Except.error (DeviceError.UnknownAttribute a S)
      else Except.ok d) = .ok d2 := h
    split_ifs at h2
    · rw [setDeviceOf_isSome S d _ _ hd] at h2
      cases h2
    · cases h2
      exact hd
  · have h2 : (if a ≠ [] then Except.error (DeviceError.UnknownAttribute a S)
      else Except.ok d) = .ok d2 := h
    split_ifs at h2
    cases h2
    exact hd

theorem step_devseg_ok_isSome (S : Str) (d d2 : Device) (y : List Str)
    (h : processSegment S d y = .ok d2) (hdev : DeviceSegP y) :
    d2.device_type.isSome := by
  rcases y with - | ⟨a, - | ⟨b, - | ⟨c, - | ⟨e, rest⟩⟩⟩⟩
  · rcases hdev with ⟨hl, -⟩ | ⟨hl, -⟩ <;> simp at hl
  · rcases hdev with ⟨-, hu⟩ | ⟨hl, -⟩
    · have hu2 : upper a = "GPU".data ∨ upper a = "CPU".data := hu
      have h2 : (if upper a = "GPU".data ∨ upper a = "CPU".data then
          setDeviceOf S d (upper a) none
        else if a ≠ [] then Except.error (DeviceError.UnknownAttribute a S)
        else Except.ok d) = .ok d2 := h
      rw [if_pos hu2] at h2
      rw [setDeviceOf_ok S d d2 _ _ h2]
      rfl
    · simp at hl
  · rcases hdev with ⟨-, hu⟩ | ⟨hl, -⟩
    · have hu2 : upper a = "GPU".data ∨ upper a = "CPU".data := hu
      have hjob : ¬ a = "job".data := by
        rintro rfl
        exact absurd hu2 (by decide)
      have hrep : ¬ a = "replica".data := by
        rintro rfl
        exact absurd hu2 (by decide)
      have htask : ¬ a = "task".data := by
        rintro rfl
        exact absurd hu2 (by decide)
      have h2 : (if a = "job".data then Except.ok (d.setJob (some (.strV b)))
        else if a = "replica".data then d.setReplica (some (.strV b))
        else if a = "task".data then d.setTask (some (.strV b))
        else if upper a = "GPU".data ∨ upper a = "CPU".data then
          setDeviceOf S d (upper a) (some b)
        else if a ≠ [] then Except.error (DeviceError.UnknownAttribute a S)
        else Except.ok d) = .ok d2 := h
      rw [if_neg hjob, if_neg hrep, if_neg htask, if_pos hu2] at h2
      rw [setDeviceOf_ok S d d2 _ _ h2]
      rfl
    · simp at hl
  · rcases hdev with ⟨hl, -⟩ | ⟨-, ha⟩
    · rcases hl with hl | hl <;> simp at hl
    · have ha2 : a = "device".data := ha
      have h2 : (if a = "device".data then setDeviceOf S d b (some c)
        else if a ≠ [] then Except.error (DeviceError.UnknownAttribute a S)
        else Except.ok d) = .ok d2 := h
      rw [if_pos ha2] at h2
      rw [setDeviceOf_ok S d d2 _ _ h2]
      rfl
  · rcases hdev with ⟨hl, -⟩ | ⟨hl, -⟩ <;> rcases hl with hl | hl <;> simp at hl

theorem processList_ok_mono (S : Str) (l : List (List Str)) :
    ∀ d dF : Device, processList S d l = .ok dF → d.device_type.isSome →
      dF.device_type.isSome := by
  induction l with
  | nil =>
    intro d dF h hd
    have h2 : (Except.ok d : Except DeviceError Device) = .ok dF := h
    cases h2
    exact hd
  | cons y rest ih =>
    intro d dF h hd
    rw [processList] at h
    cases hs : processSegment S d y with
    | ok dm =>
      rw [hs] at h
      exact ih dm dF h (step_ok_mono S d dm y hs hd)
    | error e =>
      rw [hs] at h
      cases h

theorem processList_ok_split (S : Str) (d dF : Device) (l1 l2 : List (List Str))
    (h : processList S d (l1 ++ l2) = .ok dF) :
    ∃ dm, processList S d l1 = .ok dm ∧ processList S dm l2 = .ok dF := by
  rw [processList_append] at h
  cases hm : processList S d l1 with
  | ok dm =>
    rw [hm] at h
    exact ⟨dm, rfl, h⟩
  | error e =>
    rw [hm] at h
    cases h

theorem processList_cons_split (S : Str) (d dF : Device) (y : List Str)
    (rest : List (List Str)) (h : processList S d (y :: rest) = .ok dF) :
    ∃ dm, processSegment S d y = .ok dm ∧ processList S dm rest = .ok dF := by
  rw [processList] at h
  cases hm : processSegment S d y with
  | ok dm =>
    rw [hm] at h
    exact ⟨dm, rfl, h⟩
  | error e =>
    rw [hm] at h
    cases h

theorem merge_from_eq (a b : Device) :
    a.merge_from b = ⟨b.job.or a.job, b.replica.or a.replica, b.task.or a.task,
      b.device_type.or a.device_type, b.device_index.or a.device_index⟩ := by
  rcases a with ⟨a1, a2, a3, a4, a5⟩
  rcases b with ⟨b1, b2, b3, b4, b5⟩
  cases b1 <;> cases b2 <;> cases b3 <;> cases b4 <;> cases b5 <;>
    simp [Device.merge_from, Option.or]

/-- C9: invoking the function returned by merge_device merges on a fresh
copy: the captured outer spec's reference still holds its old field values
afterwards, the returned reference is distinct from the captured one, and
mutating the returned copy never changes the captured original. -/
theorem device_function_preserves_captured_spec (r : Nat) (st : Store) (s : Str) (cd : Device) (mutd : Device)
    (h : r < st.next) (hp : from_string s = .ok cd) :
    (device_function r st s).isOk = true ∧
    Store.get (resStore (device_function r st s)) r = Store.get st r ∧
    resRef (device_function r st s) ≠ r ∧
    Store.get (Store.set (resStore (device_function r st s))
      (resRef (device_function r st s)) mutd) r = Store.get st r := by
  have hr : r ≠ st.next := by omega
  simp only [device_function, hp]
  refine ⟨rfl, ?_, ?_, ?_⟩
  · simp [resStore, resRef, Store.get, Store.set, Store.alloc, hr]
  · simp only [resRef, Store.alloc]
    omega
  · simp [resStore, resRef, Store.get, Store.set, Store.alloc, hr]

/-- C10: merge_device captures a Device instance by reference and copies it
only inside each invocation, so a mutation of the captured instance between
capture and call is reflected in the call's result, which merges the
candidate onto the instance's value at invocation time. -/
theorem merge_device_capture_by_reference (r : Nat) (st : Store) (dNew : Device) (s : Str) (cd : Device)
    (h : r < st.next) (hp : from_string s = .ok cd) :
    (device_function r (st.set r dNew) s).isOk = true ∧
    Store.get (resStore (device_function r (st.set r dNew) s))
      (resRef (device_function r (st.set r dNew) s)) = dNew.merge_from cd := by
  have hr : r ≠ st.next := by omega
  simp only [device_function, hp]
  refine ⟨rfl, ?_⟩
  simp [resStore, resRef, Store.get, Store.set, Store.alloc, hr]

theorem setReplica_coerce (d : Device) (r : Option PyVal) (r2 : Option Int)
    (hr : optIntCoerce r = some r2) : d.setReplica r = .ok { d with replica := r2 } := by
  cases r with
  | none =>
    cases hr
    rfl
  | some v =>
    simp only [optIntCoerce] at hr
    cases hv : v.pyIntCoerce with
    | some n =>
      rw [hv] at hr
      simp only [Option.map_some'] at hr
      cases hr
      simp only [Device.setReplica, hv]
    | none =>
      rw [hv] at hr
      simp at hr

theorem setTask_coerce (d : Device) (t : Option PyVal) (t2 : Option Int)
    (ht : optIntCoerce t = some t2) : d.setTask t = .ok { d with task := t2 } := by
  cases t with
  | none =>
    cases ht
    rfl
  | some v =>
    simp only [optIntCoerce] at ht
    cases hv : v.pyIntCoerce with
    | some n =>
      rw [hv] at ht
      simp only [Option.map_some'] at ht
      cases ht
      simp only [Device.setTask, hv]
    | none =>
      rw [hv] at ht
      simp at ht

theorem setReplica_fail (d : Device) (r : Option PyVal)
    (hr : optIntCoerce r = none) : ∃ e, d.setReplica r = .error e := by
  cases r with
  | none => cases hr
  | some v =>
    simp only [optIntCoerce] at hr
    cases hv : v.pyIntCoerce with
    | some n =>
      rw [hv] at hr
      simp at hr
    | none =>
      refine ⟨.InvalidInt v.pyStr, ?_⟩
      simp only [Device.setReplica, hv]

theorem setTask_fail (d : Device) (t : Option PyVal)
    (ht : optIntCoerce t = none) : ∃ e, d.setTask t = .error e := by
  cases t with
  | none => cases ht
  | some v =>
    simp only [optIntCoerce] at ht
    cases hv : v.pyIntCoerce with
    | some n =>
      rw [hv] at ht
      simp at ht
    | none =>
      refine ⟨.InvalidInt v.pyStr, ?_⟩
      simp only [Device.setTask, hv]

/-- C4 (amended): for all constructor inputs, construction coerces job with
str and replica and task with int, succeeding with exactly those coerced
fields when both coercions succeed; it fails (producing no spec) whenever
the replica value cannot be coerced to an integer, and likewise whenever
the task value cannot; device_index, by contrast, is stored verbatim with
no coercion and no failure. -/
theorem init_coercion_behavior (j r t : Option PyVal) (dt : Option Str) (di : Option PyVal) :
    (∀ r2 t2 : Option Int, optIntCoerce r = some r2 → optIntCoerce t = some t2 →
      Device.init j r t dt di = .ok ⟨j.map PyVal.pyStr, r2, t2, dtypeNorm dt, di⟩) ∧
    (optIntCoerce r = none → (Device.init j r t dt di).isOk = false) ∧
    (optIntCoerce t = none → (Device.init j r t dt di).isOk = false) ∧
    Device.init none none none none (some (.strV "x".data)) =
      .ok ⟨none, none, none, none, some (.strV "x".data)⟩ := by
  have h1 : ({} : Device).setJob j = ⟨j.map PyVal.pyStr, none, none, none, none⟩ := by
    cases j <;> rfl
  refine ⟨?_, ?_, ?_, rfl⟩
  · intro r2 t2 hr ht
    have h2 := setReplica_coerce (⟨j.map PyVal.pyStr, none, none, none, none⟩ : Device) r r2 hr
    have h3 := setTask_coerce (⟨j.map PyVal.pyStr, r2, none, none, none⟩ : Device) t t2 ht
    simp only [Device.init, h1, h2, h3]
  · intro hr
    obtain ⟨e, he⟩ :=
      setReplica_fail (⟨j.map PyVal.pyStr, none, none, none, none⟩ : Device) r hr
    simp only [Device.init, h1, he]
    rfl
  · intro ht
    cases hrc : optIntCoerce r with
    | none =>
      obtain ⟨e, he⟩ :=
        setReplica_fail (⟨j.map PyVal.pyStr, none, none, none, none⟩ : Device) r hrc
      simp only [Device.init, h1, he]
      rfl
    | some r2 =>
      have h2 := setReplica_coerce (⟨j.map PyVal.pyStr, none, none, none, none⟩ : Device) r r2 hrc
      obtain ⟨e, he⟩ :=
        setTask_fail (⟨j.map PyVal.pyStr, r2, none, none, none⟩ : Device) t ht
      simp only [Device.init, h1, h2, he]
      rfl

/-- C2: the function returned by merge_device parses the candidate device
string and overwrites each of the five fields of a copy of the outer spec
with the candidate field whenever that field is present (candidate wins,
outer fields fill the gaps), and the nested docstring example resolves at
each level to /job:worker/device:GPU:0, /job:worker/device:CPU:0 and
/job:ps/device:CPU:0. -/
theorem merge_device_overlay_and_example (s c : Str) (ds dc : Device)
    (hs : from_string s = .ok ds) (hc : from_string c = .ok dc) :
    (∃ f, merge_device s = .ok f ∧
       f c = .ok ⟨dc.job.or ds.job, dc.replica.or ds.replica, dc.task.or ds.task,
         dc.device_type.or ds.device_type, dc.device_index.or ds.device_index⟩) ∧
    resolveChain ["/job:worker".data, "/device:GPU:0".data] [] =
      .ok "/job:worker/device:GPU:0".data ∧
    resolveChain ["/device:CPU:0".data, "/job:worker".data, "/device:GPU:0".data] [] =
      .ok "/job:worker/device:CPU:0".data ∧
    resolveChain ["/job:ps".data, "/device:CPU:0".data, "/job:worker".data,
      "/device:GPU:0".data] [] = .ok "/job:ps/device:CPU:0".data := by
  refine ⟨⟨fun node_device =>
    match from_string node_device with
    | .error e => Except.error e
    | .ok current_device => Except.ok (ds.merge_from current_device), ?_, ?_⟩, rfl, rfl, rfl⟩
  · unfold merge_device
    rw [hs]
  · show (match from_string c with
      | .error e => Except.error e
      | .ok current_device => Except.ok (ds.merge_from current_device)) = _
    rw [hc]
    show (Except.ok (ds.merge_from dc) : Except DeviceError Device) = _
    rw [merge_from_eq]

/-- C3 (amended): a segment that matches none of the recognized grammar
forms raises UnknownAttribute naming its first token and the full spec,
provided its first colon-token is non-empty and the preceding segments
process without error; a segment whose first colon-token is empty (such as
:x) is silently skipped instead, as the counterexample shows. -/
theorem unknown_attribute_raised_when_head_token_nonempty (spec : Str) (pre rest : List (List Str)) (y : List Str) (d : Device)
    (hsplit : (pySplit '/' spec).map (pySplit ':') = pre ++ (y :: rest))
    (hpre : processList spec ⟨none, none, none, none, none⟩ pre = .ok d)
    (h0 : y.headD [] ≠ []) (hur : ¬ RecognizedSeg y) :
    parse_from_string spec = .error (.UnknownAttribute (y.headD []) spec) := by
  rw [parse_from_string, hsplit, processList_append_ok _ _ _ _ _ hpre, processList,
      step_unknown spec d y h0 hur]

/-- C6 (amended): when the split segments contain two device-kind segments
and every segment before the second one processes without error, parsing
fails with DuplicateDeviceType carrying the full spec; in particular
/device:CPU:0/device:GPU:1 fails that way. -/
theorem duplicate_device_type_when_prefix_ok (spec : Str) (pre mid rest : List (List Str)) (y1 y2 : List Str) (d : Device)
    (hsplit : (pySplit '/' spec).map (pySplit ':') = pre ++ (y1 :: (mid ++ (y2 :: rest))))
    (h1 : DeviceSegP y1) (h2 : DeviceSegP y2)
    (hpre : processList spec ⟨none, none, none, none, none⟩ (pre ++ (y1 :: mid)) = .ok d) :
    parse_from_string spec = .error (.DuplicateDeviceType spec) ∧
    from_string "/device:CPU:0/device:GPU:1".data =
      .error (.DuplicateDeviceType "/device:CPU:0/device:GPU:1".data) := by
  refine ⟨?_, rfl⟩
  obtain ⟨dm, hp1, hp2⟩ := processList_ok_split _ _ _ _ _ hpre
  obtain ⟨db, hs1, hs2⟩ := processList_cons_split _ _ _ _ _ hp2
  have hb : db.device_type.isSome := step_devseg_ok_isSome _ _ _ _ hs1 h1
  have hd : d.device_type.isSome := processList_ok_mono _ _ _ _ hs2 hb
  have hassoc : pre ++ (y1 :: (mid ++ (y2 :: rest))) = (pre ++ (y1 :: mid)) ++ (y2 :: rest) := by
    simp [List.append_assoc]
  rw [parse_from_string, hsplit, hassoc, processList_append_ok _ _ _ _ _ hpre, processList,
      step_dup spec d y2 hd h2]

/-- C7: to_string concatenates, in the fixed order job, replica, task,
device, exactly the segments of the present fields, printing the device
index as star when absent and as the integer otherwise, emitting no device
segment when device_type is absent, and serializing the all-absent device
to the empty string. -/
theorem to_string_emits_present_segments (d : Device) (n : Int) :
    d.to_string = joinSegs (segStrings d) ∧
    (d.device_type = none →
      d.to_string = joinSegs (jobSegs d.job ++ (replicaSegs d.replica ++ (taskSegs d.task ++ [])))) ∧
    idxStr none = "*".data ∧
    idxStr (some (.intV n)) = intToStr n ∧
    Device.to_string ⟨none, none, none, none, none⟩ = [] := by
  refine ⟨to_string_eq_joinSegs d, ?_, rfl, rfl, rfl⟩
  intro h
  rw [to_string_eq_joinSegs d, segStrings, h]
  rfl

/-- C8: a short-form segment whose token upper-cases to CPU or GPU is
accepted case-insensitively and stores the upper-cased token; the long form
device:kind:index stores the kind verbatim (so /cpu:0 gives CPU while
/device:tpu:0 gives tpu); and construction upper-cases device_type exactly
when it is the lowercase string cpu or gpu, storing any other value
verbatim. -/
theorem device_type_case_handling (spec : Str) (d1 d2 : Device) (w k s2 : Str)
    (hw : upper w = "GPU".data ∨ upper w = "CPU".data)
    (h1 : d1.device_type = none) (h2 : d2.device_type = none)
    (hs1 : s2 ≠ "cpu".data) (hs2 : s2 ≠ "gpu".data) :
    processSegment spec d1 [w] = .ok { d1 with device_type := some (upper w) } ∧
    processSegment spec d2 ["device".data, k, "*".data] =
      .ok { d2 with device_type := some k } ∧
    from_string "/cpu:0".data = .ok ⟨none, none, none, some "CPU".data, some (.intV 0)⟩ ∧
    from_string "/device:tpu:0".data = .ok ⟨none, none, none, some "tpu".data, some (.intV 0)⟩ ∧
    dtypeNorm (some "cpu".data) = some "CPU".data ∧
    dtypeNorm (some "gpu".data) = some "GPU".data ∧
    dtypeNorm (some s2) = some s2 := by
  refine ⟨?_, seg_device_star spec d2 k h2, rfl, rfl, rfl, rfl, ?_⟩
  · have hset : setDeviceOf spec d1 (upper w) none =
        .ok { d1 with device_type := some (upper w) } := by
      rw [setDeviceOf, h1]
      rfl
    show (if upper w = "GPU".data ∨ upper w = "CPU".data then
        setDeviceOf spec d1 (upper w) none
      else if w ≠ [] then Except.error (DeviceError.UnknownAttribute w spec)
      else Except.ok d1) = _
    rw [if_pos hw, hset]
  · have hne : ¬ (s2 = "cpu".data ∨ s2 = "gpu".data) := fun h => h.elim hs1 hs2
    simp only [dtypeNorm]
    rw [if_neg hne]

/-- Witness for C1 at the concrete device /job:worker/replica:1/task:2/device:GPU:3. -/
theorem round_trip_parse_of_to_string_witness :
    parse_from_string (Device.to_string ⟨some "worker".data, some 1, some 2,
      some "GPU".data, some (.intV 3)⟩) =
      .ok ⟨some "worker".data, some 1, some 2, some "GPU".data, some (.intV 3)⟩ :=
  round_trip_parse_of_to_string ⟨some "worker".data, some 1, some 2, some "GPU".data, some (.intV 3)⟩
    (by decide) (by decide) (by decide) (by decide)
    (fun v hv => by
      rw [Option.mem_def, Option.some.injEq] at hv
      exact ⟨3, by decide, hv.symm⟩)
    (by decide)

/-- Witness for C2 with outer spec /job:a and candidate /task:2. -/
theorem merge_device_overlay_witness :
    ∃ f, merge_device "/job:a".data = .ok f ∧
      f "/task:2".data = .ok ⟨some "a".data, none, some 2, none, none⟩ := by
  obtain ⟨f, hf1, hf2⟩ := (merge_device_overlay_and_example "/job:a".data "/task:2".data
    ⟨some "a".data, none, none, none, none⟩ ⟨none, none, some 2, none, none⟩ rfl rfl).1
  exact ⟨f, hf1, hf2⟩

/-- Witness for C3 at the spec /bogus:x. -/
theorem unknown_attribute_raised_witness :
    parse_from_string "/bogus:x".data =
      .error (.UnknownAttribute "bogus".data "/bogus:x".data) :=
  unknown_attribute_raised_when_head_token_nonempty "/bogus:x".data [[[]]] [] ["bogus".data, "x".data] ⟨none, none, none, none, none⟩
    rfl rfl (by decide) (by decide)

/-- Counterexample to C3 as stated: the non-empty unrecognized segment :x
does not raise; parse_from_string of /:x succeeds with every field absent. -/
theorem empty_head_token_segment_skipped :
    parse_from_string "/:x".data = .ok ⟨none, none, none, none, none⟩ ∧
    ":x".data ≠ [] ∧ ¬ RecognizedSeg [[], "x".data] :=
  ⟨rfl, by decide, by decide⟩

/-- Witness for C4 with job w, replica the string 3 and a string device
index on the success path, and the non-numeric strings q and z hitting the
replica and task failure paths. -/
theorem init_coercion_behavior_witness :
    Device.init (some (.strV "w".data)) (some (.strV "3".data)) none none
      (some (.strV "idx".data)) =
      .ok ⟨some "w".data, some 3, none, none, some (.strV "idx".data)⟩ ∧
    (Device.init none (some (.strV "q".data)) none none none).isOk = false ∧
    (Device.init none none (some (.strV "z".data)) none none).isOk = false :=
  ⟨(init_coercion_behavior (some (.strV "w".data)) (some (.strV "3".data)) none none
      (some (.strV "idx".data))).1 (some 3) none rfl rfl,
   (init_coercion_behavior none (some (.strV "q".data)) none none none).2.1 rfl,
   (init_coercion_behavior none none (some (.strV "z".data)) none none).2.2.1 rfl⟩

/-- Counterexample to C4 as stated: the non-integer device_index value x is
not coercible, yet construction succeeds and stores it verbatim. -/
theorem init_device_index_uncoerced :
    PyVal.pyIntCoerce (.strV "x".data) = none ∧
    Device.init none none none none (some (.strV "x".data)) =
      .ok ⟨none, none, none, none, some (.strV "x".data)⟩ :=
  ⟨rfl, rfl⟩

/-- Counterexample to C5 as stated: merging a device whose device_type is
the lowercase string cpu (obtainable by parsing /device:cpu:0) stores cpu,
not CPU, so the construction-time case normalization is not applied. -/
theorem merge_from_keeps_lowercase_cpu :
    (Device.merge_from ⟨none, none, none, none, none⟩
      ⟨none, none, none, some "cpu".data, none⟩).device_type = some "cpu".data ∧
    "cpu".data ≠ "CPU".data ∧
    from_string "/device:cpu:0".data =
      .ok ⟨none, none, none, some "cpu".data, some (.intV 0)⟩ :=
  ⟨rfl, by decide, rfl⟩

/-- Witness for C6 at the spec /device:CPU:0/device:GPU:1. -/
theorem duplicate_device_type_witness :
    parse_from_string "/device:CPU:0/device:GPU:1".data =
      .error (.DuplicateDeviceType "/device:CPU:0/device:GPU:1".data) :=
  (duplicate_device_type_when_prefix_ok "/device:CPU:0/device:GPU:1".data [[[]]] [] []
    ["device".data, "CPU".data, "0".data] ["device".data, "GPU".data, "1".data]
    ⟨none, none, none, some "CPU".data, some (.intV 0)⟩
    rfl (by decide) (by decide) rfl).1

/-- Counterexample to C6 as stated: /task:x/cpu:0/gpu:1 names a device kind
in two segments yet fails with the int-coercion error on x, not with
DuplicateDeviceType. -/
theorem duplicate_preempted_by_invalid_int :
    from_string "/task:x/cpu:0/gpu:1".data = .error (.InvalidInt "x".data) ∧
    DeviceSegP ["cpu".data, "0".data] ∧ DeviceSegP ["gpu".data, "1".data] ∧
    (pySplit '/' "/task:x/cpu:0/gpu:1".data).map (pySplit ':') =
      [[[]], ["task".data, "x".data], ["cpu".data, "0".data], ["gpu".data, "1".data]] ∧
    (Except.error (.InvalidInt "x".data) : Except DeviceError Device) ≠
      .error (.DuplicateDeviceType "/task:x/cpu:0/gpu:1".data) :=
  ⟨rfl, by decide, by decide, rfl, by decide⟩

/-- Witness for C7 at a device with only the job field set. -/
theorem to_string_emits_present_segments_witness :
    Device.to_string ⟨some "w".data, none, none, none, none⟩ =
      joinSegs (jobSegs (some "w".data) ++ (replicaSegs none ++ (taskSegs none ++ []))) ∧
    idxStr (some (.intV 5)) = intToStr 5 :=
  ⟨(to_string_emits_present_segments ⟨some "w".data, none, none, none, none⟩ 5).2.1 rfl,
   (to_string_emits_present_segments ⟨some "w".data, none, none, none, none⟩ 5).2.2.2.1⟩

/-- Witness for C8 at the mixed-case token cPu and the non-normalized Cpu. -/
theorem device_type_case_handling_witness :
    processSegment [] ⟨none, none, none, none, none⟩ ["cPu".data] =
      .ok ⟨none, none, none, some "CPU".data, none⟩ ∧
    dtypeNorm (some "Cpu".data) = some "Cpu".data :=
  ⟨(device_type_case_handling [] ⟨none, none, none, none, none⟩ ⟨none, none, none, none, none⟩
      "cPu".data "k".data "Cpu".data (by decide) rfl rfl (by decide) (by decide)).1,
   (device_type_case_handling [] ⟨none, none, none, none, none⟩ ⟨none, none, none, none, none⟩
      "cPu".data "k".data "Cpu".data (by decide) rfl rfl (by decide) (by decide)).2.2.2.2.2.2⟩

/-- C5 (amended): merge_from overwrites each of the five fields of self
with the corresponding field of the other device whenever present (left
untouched otherwise); the values are taken over verbatim, with no cpu or
gpu upper-casing, since device_type is a plain attribute, and the
spec example job w, replica 1 merged with task 3 holds. -/
theorem merge_from_overlay_verbatim (a b : Device) :
    a.merge_from b = ⟨b.job.or a.job, b.replica.or a.replica, b.task.or a.task,
      b.device_type.or a.device_type, b.device_index.or a.device_index⟩ ∧
    Device.merge_from ⟨some "w".data, some 1, none, none, none⟩
      ⟨none, none, some 3, none, none⟩ = ⟨some "w".data, some 1, some 3, none, none⟩ :=
  ⟨merge_from_eq a b, rfl⟩

/-- Witness for C9 on a one-object store and the empty candidate. -/
theorem device_function_preserves_captured_spec_witness :
    (device_function 0 ⟨1, fun _ => ⟨none, none, none, none, none⟩⟩ []).isOk = true ∧
    Store.get (resStore (device_function 0 ⟨1, fun _ => ⟨none, none, none, none, none⟩⟩ [])) 0 =
      Store.get ⟨1, fun _ => ⟨none, none, none, none, none⟩⟩ 0 ∧
    resRef (device_function 0 ⟨1, fun _ => ⟨none, none, none, none, none⟩⟩ []) ≠ 0 ∧
    Store.get (Store.set
      (resStore (device_function 0 ⟨1, fun _ => ⟨none, none, none, none, none⟩⟩ []))
      (resRef (device_function 0 ⟨1, fun _ => ⟨none, none, none, none, none⟩⟩ []))
      ⟨some "w".data, none, none, none, none⟩) 0 =
      Store.get ⟨1, fun _ => ⟨none, none, none, none, none⟩⟩ 0 :=
  device_function_preserves_captured_spec 0 ⟨1, fun _ => ⟨none, none, none, none, none⟩⟩ [] ⟨none, none, none, none, none⟩
    ⟨some "w".data, none, none, none, none⟩ (by decide) rfl

/-- Witness for C10: mutating the captured object to /job:ps before calling
with candidate /task:7 yields the merge of the mutated value. -/
theorem merge_device_capture_by_reference_witness :
    (device_function 0 ((⟨1, fun _ => ⟨none, none, none, none, none⟩⟩ : Store).set 0
      ⟨some "ps".data, none, none, none, none⟩) "/task:7".data).isOk = true ∧
    Store.get (resStore (device_function 0 ((⟨1, fun _ => ⟨none, none, none, none, none⟩⟩ : Store).set 0
        ⟨some "ps".data, none, none, none, none⟩) "/task:7".data))
      (resRef (device_function 0 ((⟨1, fun _ => ⟨none, none, none, none, none⟩⟩ : Store).set 0
        ⟨some "ps".data, none, none, none, none⟩) "/task:7".data)) =
      Device.merge_from ⟨some "ps".data, none, none, none, none⟩ ⟨none, none, some 7, none, none⟩ :=
  merge_device_capture_by_reference 0 ⟨1, fun _ => ⟨none, none, none, none, none⟩⟩
    ⟨some "ps".data, none, none, none, none⟩ "/task:7".data ⟨none, none, some 7, none, none⟩
    (by decide) rfl
